import Mathlib

/-
Verification of `ChatTextAreaAutocompleteTelemetry`
(src/services/ghost/chat-autocomplete/ChatTextAreaAutocompleteTelemetry.ts).

The module is a stateless wrapper: seven public capture methods each assemble a
flat property object and pass it, together with a fixed event kind, to a private
dispatch method `captureEvent`.  The dispatch forwards to the external sink
`TelemetryService.instance.captureEvent` only when `TelemetryService.hasInstance()`
holds, then writes one `console.log` line.

Embedding choices:
  * JavaScript property values are the inductive `JSVal` (string, number,
    boolean, undefined, or a nested object).  Numbers are carried, never
    computed with, so `Int` stands in for the JS number type.
  * A JavaScript object is its ordered list of own properties,
    `List (String × JSVal)`.  An object-literal assignment `k: v` on top of a
    spread is `setKey`: it overwrites the value of an existing key in place and
    otherwise appends, which is exactly the JS object-literal semantics
    (first-insertion key order, last assignment wins).
  * The global `TelemetryService` is a pair of inputs: the boolean result of
    `hasInstance()` and the behaviour of the sink's own `captureEvent`, a
    function that either returns normally or throws (`Except String Unit`).
  * Each operation returns a `DispatchResult`: the list of sink invocations
    made, the list of console log lines written, and the exception propagated
    out of the method, if any.
-/

namespace ChatAutocomplete

/-- The seven event kinds used by this module, one constructor per member of
the external `TelemetryEventName` enum referenced in the source. -/
inductive TelemetryEventName where
  | CHAT_AUTOCOMPLETE_SUGGESTION_REQUESTED
  | CHAT_AUTOCOMPLETE_LLM_REQUEST_COMPLETED
  | CHAT_AUTOCOMPLETE_LLM_REQUEST_FAILED
  | CHAT_AUTOCOMPLETE_SUGGESTION_RETURNED
  | CHAT_AUTOCOMPLETE_SUGGESTION_FILTERED
  | CHAT_AUTOCOMPLETE_SUGGESTION_ACCEPTED
  | CHAT_AUTOCOMPLETE_SUGGESTION_DISMISSED
deriving DecidableEq, Repr

/-- Modelled from the spec: the string value of each `TelemetryEventName` enum
member lives in the external package `@roo-code/types`, which is not part of
this repository; each event kind is rendered by its symbolic member name. -/
def eventStr : TelemetryEventName → String
  | .CHAT_AUTOCOMPLETE_SUGGESTION_REQUESTED => "CHAT_AUTOCOMPLETE_SUGGESTION_REQUESTED"
  | .CHAT_AUTOCOMPLETE_LLM_REQUEST_COMPLETED => "CHAT_AUTOCOMPLETE_LLM_REQUEST_COMPLETED"
  | .CHAT_AUTOCOMPLETE_LLM_REQUEST_FAILED => "CHAT_AUTOCOMPLETE_LLM_REQUEST_FAILED"
  | .CHAT_AUTOCOMPLETE_SUGGESTION_RETURNED => "CHAT_AUTOCOMPLETE_SUGGESTION_RETURNED"
  | .CHAT_AUTOCOMPLETE_SUGGESTION_FILTERED => "CHAT_AUTOCOMPLETE_SUGGESTION_FILTERED"
  | .CHAT_AUTOCOMPLETE_SUGGESTION_ACCEPTED => "CHAT_AUTOCOMPLETE_SUGGESTION_ACCEPTED"
  | .CHAT_AUTOCOMPLETE_SUGGESTION_DISMISSED => "CHAT_AUTOCOMPLETE_SUGGESTION_DISMISSED"

/-- A JavaScript property value as it can appear in a `Record<string, unknown>`:
a scalar string, number, boolean, the value `undefined`, or a nested object. -/
inductive JSVal where
  | vStr : String → JSVal
  | vNum : Int → JSVal
  | vBool : Bool → JSVal
  | vUndefined : JSVal
  | vObj : List (String × JSVal) → JSVal
deriving Repr

/-- A JavaScript object: its own properties in insertion order. -/
abbrev JSObject := List (String × JSVal)

/-- Property assignment `k: v` in an object literal: overwrite the value of an
existing key in place, otherwise append the new property. -/
def setKey (o : JSObject) (k : String) (v : JSVal) : JSObject :=
  if o.any (fun p => p.1 == k) then
    o.map (fun p => if p.1 == k then (k, v) else p)
  else o ++ [(k, v)]

/-- Property read `o[k]`: the value of the first property named `k`, if any. -/
def lookupKey (o : JSObject) (k : String) : Option JSVal :=
  (o.find? (fun p => p.1 == k)).map (fun p => p.2)

/-- `Object.keys`: the property names in order. -/
def objKeys (o : JSObject) : List String := o.map (fun p => p.1)

/-- A value is scalar when it is not a nested object. -/
def isScalar : JSVal → Bool
  | .vObj _ => false
  | _ => true

/-- A value that is literally a string, a number, or a boolean
(`undefined` is none of these). -/
def isStrNumBool : JSVal → Bool
  | .vStr _ => true
  | .vNum _ => true
  | .vBool _ => true
  | _ => false

/-- Every value of the object is scalar: the mapping is flat. -/
def allValuesScalar (o : JSObject) : Bool := o.all (fun p => isScalar p.2)

/-- The `ChatAutocompleteContext` interface: `modelId` and `provider` are
optional, the three flags are required booleans. -/
structure ChatAutocompleteContext where
  modelId : Option String
  provider : Option String
  usedFim : Bool
  hasVisibleCodeContext : Bool
  hasClipboardContext : Bool

/-- Reading an optional string field of the context inside an object literal:
a missing field reads as the value `undefined`. -/
def optStrVal : Option String → JSVal
  | some s => .vStr s
  | none => .vUndefined

/-- The behaviour of the external sink's own `captureEvent`: called with the
event kind and the optional properties object, it either returns normally or
throws an exception (carried as a string message). -/
abbrev SinkBehavior := TelemetryEventName → Option JSObject → Except String Unit

/-- One invocation of `TelemetryService.instance.captureEvent`. -/
structure SinkCall where
  event : TelemetryEventName
  properties : Option JSObject

/-- One `console.log` line: the formatted message and the properties argument,
when one was passed. -/
structure LogLine where
  message : String
  properties : Option JSObject

/-- What one call of a capture method does: the sink invocations it performs,
the console lines it logs, and the exception it propagates, if any. -/
structure DispatchResult where
  sinkCalls : List SinkCall
  logs : List LogLine
  thrown : Option String

/-- The private dispatch method `captureEvent(event, properties?)`.  When
`hasInstance` is false nothing happens.  When it is true the sink is invoked
with the event (and the properties when present); if that invocation throws,
the exception propagates and the `console.log` after it is not reached,
otherwise exactly one log line is written. -/
def captureEvent (hasInstance : Bool) (sink : SinkBehavior)
    (event : TelemetryEventName) (properties : Option JSObject) : DispatchResult :=
  if hasInstance then
    match properties with
    | some props =>
      match sink event (some props) with
      | .ok _ =>
        ⟨[⟨event, some props⟩],
         [⟨"Chat Autocomplete Telemetry event: " ++ eventStr event, some props⟩],
         none⟩
      | .error e => ⟨[⟨event, some props⟩], [], some e⟩
    | none =>
      match sink event none with
      | .ok _ =>
        ⟨[⟨event, none⟩],
         [⟨"Chat Autocomplete Telemetry event: " ++ eventStr event, none⟩],
         none⟩
      | .error e => ⟨[⟨event, none⟩], [], some e⟩
  else ⟨[], [], none⟩

/-- The object literal built by `captureSuggestionRequested`. -/
def suggestionRequestedProps (context : ChatAutocompleteContext)
    (userTextLength : Int) : JSObject :=
  [("modelId", optStrVal context.modelId),
   ("provider", optStrVal context.provider),
   ("usedFim", JSVal.vBool context.usedFim),
   ("hasVisibleCodeContext", JSVal.vBool context.hasVisibleCodeContext),
   ("hasClipboardContext", JSVal.vBool context.hasClipboardContext),
   ("userTextLength", JSVal.vNum userTextLength)]

/-- `captureSuggestionRequested(context, userTextLength)`. -/
def captureSuggestionRequested (hasInstance : Bool) (sink : SinkBehavior)
    (context : ChatAutocompleteContext) (userTextLength : Int) : DispatchResult :=
  captureEvent hasInstance sink .CHAT_AUTOCOMPLETE_SUGGESTION_REQUESTED
    (some (suggestionRequestedProps context userTextLength))

/-- The typed parameter of `captureLlmRequestCompleted`:
`{ latencyMs: number; inputTokens?: number; outputTokens?: number }`.
`none` means the optional property is absent from the record. -/
structure LlmRequestCompletedProps where
  latencyMs : Int
  inputTokens : Option Int
  outputTokens : Option Int

/-- The runtime object denoted by a typed `LlmRequestCompletedProps` record:
absent optional properties contribute no key at all. -/
def llmCompletedPropsObj (p : LlmRequestCompletedProps) : JSObject :=
  [("latencyMs", JSVal.vNum p.latencyMs)]
    ++ (match p.inputTokens with
        | some n => [("inputTokens", JSVal.vNum n)]
        | none => [])
    ++ (match p.outputTokens with
        | some n => [("outputTokens", JSVal.vNum n)]
        | none => [])

/-- The object literal `{ ...properties, modelId: context.modelId,
provider: context.provider, usedFim: context.usedFim }` shared by
`captureLlmRequestCompleted` and `captureLlmRequestFailed`: the input record is
spread first, then the three context-derived assignments are applied. -/
def spreadWithContext (properties : JSObject)
    (context : ChatAutocompleteContext) : JSObject :=
  setKey (setKey (setKey properties
    "modelId" (optStrVal context.modelId))
    "provider" (optStrVal context.provider))
    "usedFim" (JSVal.vBool context.usedFim)

/-- `captureLlmRequestCompleted` on the raw runtime record, which at the
JavaScript level may carry any keys. -/
def captureLlmRequestCompletedRaw (hasInstance : Bool) (sink : SinkBehavior)
    (properties : JSObject) (context : ChatAutocompleteContext) : DispatchResult :=
  captureEvent hasInstance sink .CHAT_AUTOCOMPLETE_LLM_REQUEST_COMPLETED
    (some (spreadWithContext properties context))

/-- `captureLlmRequestCompleted(properties, context)` at its TypeScript type. -/
def captureLlmRequestCompleted (hasInstance : Bool) (sink : SinkBehavior)
    (properties : LlmRequestCompletedProps)
    (context : ChatAutocompleteContext) : DispatchResult :=
  captureLlmRequestCompletedRaw hasInstance sink
    (llmCompletedPropsObj properties) context

/-- The typed parameter of `captureLlmRequestFailed`:
`{ latencyMs: number; error: string }`. -/
structure LlmRequestFailedProps where
  latencyMs : Int
  error : String

/-- The runtime object denoted by a typed `LlmRequestFailedProps` record. -/
def llmFailedPropsObj (p : LlmRequestFailedProps) : JSObject :=
  [("latencyMs", JSVal.vNum p.latencyMs), ("error", JSVal.vStr p.error)]

/-- `captureLlmRequestFailed` on the raw runtime record. -/
def captureLlmRequestFailedRaw (hasInstance : Bool) (sink : SinkBehavior)
    (properties : JSObject) (context : ChatAutocompleteContext) : DispatchResult :=
  captureEvent hasInstance sink .CHAT_AUTOCOMPLETE_LLM_REQUEST_FAILED
    (some (spreadWithContext properties context))

/-- `captureLlmRequestFailed(properties, context)` at its TypeScript type. -/
def captureLlmRequestFailed (hasInstance : Bool) (sink : SinkBehavior)
    (properties : LlmRequestFailedProps)
    (context : ChatAutocompleteContext) : DispatchResult :=
  captureLlmRequestFailedRaw hasInstance sink
    (llmFailedPropsObj properties) context

/-- The object literal built by `captureSuggestionReturned`. -/
def suggestionReturnedProps (context : ChatAutocompleteContext)
    (suggestionLength : Int) : JSObject :=
  [("modelId", optStrVal context.modelId),
   ("provider", optStrVal context.provider),
   ("usedFim", JSVal.vBool context.usedFim),
   ("suggestionLength", JSVal.vNum suggestionLength)]

/-- `captureSuggestionReturned(context, suggestionLength)`. -/
def captureSuggestionReturned (hasInstance : Bool) (sink : SinkBehavior)
    (context : ChatAutocompleteContext) (suggestionLength : Int) : DispatchResult :=
  captureEvent hasInstance sink .CHAT_AUTOCOMPLETE_SUGGESTION_RETURNED
    (some (suggestionReturnedProps context suggestionLength))

/-- The union type of the `reason` parameter of `captureSuggestionFiltered`. -/
inductive FilterReason where
  | empty_response
  | unwanted_pattern
  | too_short
  | model_not_loaded
  | no_credentials
deriving DecidableEq, Repr

/-- The string literal denoted by each filter reason. -/
def filterReasonStr : FilterReason → String
  | .empty_response => "empty_response"
  | .unwanted_pattern => "unwanted_pattern"
  | .too_short => "too_short"
  | .model_not_loaded => "model_not_loaded"
  | .no_credentials => "no_credentials"

/-- The object literal built by `captureSuggestionFiltered`. -/
def suggestionFilteredProps (reason : FilterReason)
    (context : ChatAutocompleteContext) : JSObject :=
  [("reason", JSVal.vStr (filterReasonStr reason)),
   ("modelId", optStrVal context.modelId),
   ("provider", optStrVal context.provider),
   ("usedFim", JSVal.vBool context.usedFim)]

/-- `captureSuggestionFiltered(reason, context)`. -/
def captureSuggestionFiltered (hasInstance : Bool) (sink : SinkBehavior)
    (reason : FilterReason) (context : ChatAutocompleteContext) : DispatchResult :=
  captureEvent hasInstance sink .CHAT_AUTOCOMPLETE_SUGGESTION_FILTERED
    (some (suggestionFilteredProps reason context))

/-- The object literal built by `captureSuggestionAccepted`. -/
def suggestionAcceptedProps (suggestionLength : Int) : JSObject :=
  [("suggestionLength", JSVal.vNum suggestionLength)]

/-- `captureSuggestionAccepted(suggestionLength)`: context-independent. -/
def captureSuggestionAccepted (hasInstance : Bool) (sink : SinkBehavior)
    (suggestionLength : Int) : DispatchResult :=
  captureEvent hasInstance sink .CHAT_AUTOCOMPLETE_SUGGESTION_ACCEPTED
    (some (suggestionAcceptedProps suggestionLength))

/-- The union type of the `dismissReason` parameter of
`captureSuggestionDismissed`. -/
inductive DismissReason where
  | escape
  | continued_typing
  | clicked_away
  | timeout
deriving DecidableEq, Repr

/-- The string literal denoted by each dismiss reason. -/
def dismissReasonStr : DismissReason → String
  | .escape => "escape"
  | .continued_typing => "continued_typing"
  | .clicked_away => "clicked_away"
  | .timeout => "timeout"

/-- The object literal built by `captureSuggestionDismissed`. -/
def suggestionDismissedProps (dismissReason : DismissReason) : JSObject :=
  [("dismissReason", JSVal.vStr (dismissReasonStr dismissReason))]

/-- `captureSuggestionDismissed(dismissReason)`: context-independent. -/
def captureSuggestionDismissed (hasInstance : Bool) (sink : SinkBehavior)
    (dismissReason : DismissReason) : DispatchResult :=
  captureEvent hasInstance sink .CHAT_AUTOCOMPLETE_SUGGESTION_DISMISSED
    (some (suggestionDismissedProps dismissReason))

/-- The reporter class itself: `constructor() {}` and no field declarations,
so its state carries no data. -/
structure ReporterState where

/-- One call to a public capture method, with its arguments. -/
inductive CaptureCall where
  | suggestionRequested (context : ChatAutocompleteContext) (userTextLength : Int)
  | llmRequestCompleted (properties : LlmRequestCompletedProps)
      (context : ChatAutocompleteContext)
  | llmRequestFailed (properties : LlmRequestFailedProps)
      (context : ChatAutocompleteContext)
  | suggestionReturned (context : ChatAutocompleteContext) (suggestionLength : Int)
  | suggestionFiltered (reason : FilterReason) (context : ChatAutocompleteContext)
  | suggestionAccepted (suggestionLength : Int)
  | suggestionDismissed (dismissReason : DismissReason)

/-- Dispatch one capture call to the corresponding method. -/
def runCall (hasInstance : Bool) (sink : SinkBehavior) : CaptureCall → DispatchResult
  | .suggestionRequested context n => captureSuggestionRequested hasInstance sink context n
  | .llmRequestCompleted p context => captureLlmRequestCompleted hasInstance sink p context
  | .llmRequestFailed p context => captureLlmRequestFailed hasInstance sink p context
  | .suggestionReturned context n => captureSuggestionReturned hasInstance sink context n
  | .suggestionFiltered r context => captureSuggestionFiltered hasInstance sink r context
  | .suggestionAccepted n => captureSuggestionAccepted hasInstance sink n
  | .suggestionDismissed r => captureSuggestionDismissed hasInstance sink r

/-- State-passing form of one capture call: the method bodies only read their
arguments and assign no field of the class and no property of the context, so
the reporter state after the call is the state before, and the call (with the
context object it carries) is returned as given. -/
def runCallSt (st : ReporterState) (hasInstance : Bool) (sink : SinkBehavior)
    (c : CaptureCall) : ReporterState × CaptureCall × DispatchResult :=
  (st, c, runCall hasInstance sink c)

/-- Run a sequence of capture calls, threading the reporter state through. -/
def runSeq (st : ReporterState) (hasInstance : Bool) (sink : SinkBehavior) :
    List CaptureCall → ReporterState × List DispatchResult
  | [] => (st, [])
  | c :: cs =>
    let r := runCallSt st hasInstance sink c
    let rest := runSeq r.1 hasInstance sink cs
    (rest.1, r.2.2 :: rest.2)

/-- A sink behaviour that always returns normally. -/
def okSink : SinkBehavior := fun _ _ => .ok ()

/-- The dispatch with no sink does nothing at all. -/
theorem captureEvent_false (sink : SinkBehavior) (e : TelemetryEventName)
    (p : Option JSObject) : captureEvent false sink e p = ⟨[], [], none⟩ := rfl

/-- With a sink present, the sink is invoked exactly once with the given event
and properties, whether or not its call throws. -/
theorem captureEvent_true_sinkCalls (sink : SinkBehavior) (e : TelemetryEventName)
    (p : Option JSObject) : (captureEvent true sink e p).sinkCalls = [⟨e, p⟩] := by
  cases p with
  | some props => cases h : sink e (some props) <;> simp [captureEvent, h]
  | none => cases h : sink e none <;> simp [captureEvent, h]

theorem lookupKey_setKey_self (o : JSObject) (k : String) (v : JSVal) :
    lookupKey (setKey o k v) k = some v := by
  unfold setKey lookupKey
  by_cases h : o.any (fun p => p.1 == k)
  · simp only [h, if_true, List.find?_map]
    have hpred : ((fun p : String × JSVal => p.1 == k) ∘
        fun p : String × JSVal => if p.1 == k then (k, v) else p)
        = fun p : String × JSVal => p.1 == k := by
      funext p
      by_cases hp : p.1 = k <;> simp [hp]
    rw [hpred]
    have hsome : (o.find? (fun p => p.1 == k)).isSome := by
      rw [List.find?_isSome]
      obtain ⟨q, hq, hqk⟩ := List.any_eq_true.mp h
      exact ⟨q, hq, hqk⟩
    obtain ⟨q, hq⟩ := Option.isSome_iff_exists.mp hsome
    have hqk : q.1 = k := by simpa using List.find?_some hq
    simp [hq, hqk]
  · simp only [h, if_false]
    have hnone : o.find? (fun p => p.1 == k) = none := by
      rw [List.find?_eq_none]
      intro x hx hxk
      exact absurd (List.any_eq_true.mpr ⟨x, hx, hxk⟩) h
    simp [hnone]

theorem lookupKey_setKey_of_ne (o : JSObject) (k j : String) (v : JSVal)
    (hne : j ≠ k) : lookupKey (setKey o k v) j = lookupKey o j := by
  unfold setKey lookupKey
  by_cases h : o.any (fun p => p.1 == k)
  · simp only [h, if_true, List.find?_map]
    have hpred : ((fun p : String × JSVal => p.1 == j) ∘
        fun p : String × JSVal => if p.1 == k then (k, v) else p)
        = fun p : String × JSVal => p.1 == j := by
      funext p
      by_cases hp : p.1 = k
      · simp [hp, Ne.symm hne]
      · simp [hp]
    rw [hpred]
    cases hf : o.find? (fun p => p.1 == j) with
    | none => simp [hf]
    | some q =>
      have hqj : q.1 = j := by simpa using List.find?_some hf
      have hqk : ¬(q.1 = k) := by rw [hqj]; exact hne
      simp [hf, hqk]
  · simp only [h, if_false, List.find?_append]
    have hlast : List.find? (fun p : String × JSVal => p.1 == j) [(k, v)] = none := by
      simp [Ne.symm hne]
    simp [hlast]

/-- With a sink present whose call returns normally, exactly one log line is
written: the fixed prefix, the event kind, and the properties. -/
theorem captureEvent_true_logs (sink : SinkBehavior) (e : TelemetryEventName)
    (obj : JSObject) (h : sink e (some obj) = Except.ok ()) :
    (captureEvent true sink e (some obj)).logs =
      [⟨"Chat Autocomplete Telemetry event: " ++ eventStr e, some obj⟩] := by
  simp [captureEvent, h]

/-- Spreading the typed `captureLlmRequestCompleted` record and then assigning
the three context fields appends them: the typed record never carries a key
named `modelId`, `provider` or `usedFim`. -/
theorem spread_llmCompleted_eq (p : LlmRequestCompletedProps)
    (context : ChatAutocompleteContext) :
    spreadWithContext (llmCompletedPropsObj p) context =
      llmCompletedPropsObj p ++
        [("modelId", optStrVal context.modelId),
         ("provider", optStrVal context.provider),
         ("usedFim", JSVal.vBool context.usedFim)] := by
  obtain ⟨l, i, o⟩ := p
  cases i <;> cases o <;> rfl

/-- Same for the typed `captureLlmRequestFailed` record. -/
theorem spread_llmFailed_eq (p : LlmRequestFailedProps)
    (context : ChatAutocompleteContext) :
    spreadWithContext (llmFailedPropsObj p) context =
      llmFailedPropsObj p ++
        [("modelId", optStrVal context.modelId),
         ("provider", optStrVal context.provider),
         ("usedFim", JSVal.vBool context.usedFim)] := rfl

/-- In any mapping built by the spread-then-assign literal, the key `modelId`
holds the context's value, whatever the input record contained. -/
theorem lookup_spread_modelId (o : JSObject) (context : ChatAutocompleteContext) :
    lookupKey (spreadWithContext o context) "modelId"
      = some (optStrVal context.modelId) := by
  unfold spreadWithContext
  rw [lookupKey_setKey_of_ne _ _ _ _ (by decide),
      lookupKey_setKey_of_ne _ _ _ _ (by decide),
      lookupKey_setKey_self]

/-- In any mapping built by the spread-then-assign literal, the key `provider`
holds the context's value. -/
theorem lookup_spread_provider (o : JSObject) (context : ChatAutocompleteContext) :
    lookupKey (spreadWithContext o context) "provider"
      = some (optStrVal context.provider) := by
  unfold spreadWithContext
  rw [lookupKey_setKey_of_ne _ _ _ _ (by decide), lookupKey_setKey_self]

/-- In any mapping built by the spread-then-assign literal, the key `usedFim`
holds the context's value. -/
theorem lookup_spread_usedFim (o : JSObject) (context : ChatAutocompleteContext) :
    lookupKey (spreadWithContext o context) "usedFim"
      = some (JSVal.vBool context.usedFim) := by
  unfold spreadWithContext
  rw [lookupKey_setKey_self]

/-- Reading an optional context field never yields a nested object. -/
theorem isScalar_optStrVal (x : Option String) : isScalar (optStrVal x) = true := by
  cases x <;> rfl

theorem isScalar_vStr (s : String) : isScalar (JSVal.vStr s) = true := rfl

theorem isScalar_vNum (n : Int) : isScalar (JSVal.vNum n) = true := rfl

theorem isScalar_vBool (b : Bool) : isScalar (JSVal.vBool b) = true := rfl

/-- Claim C1: for each of the seven public capture operations, with the sink
present, the sink's `captureEvent` is invoked exactly once, with the
operation's fixed event kind and the mapping holding exactly the documented
keys with the values passed by the caller or copied from the context. -/
theorem claim_C1_capture_ops_forward_documented (sink : SinkBehavior)
    (context : ChatAutocompleteContext) (userTextLength : Int)
    (p : LlmRequestCompletedProps) (pf : LlmRequestFailedProps)
    (suggestionLength acceptedLength : Int)
    (fr : FilterReason) (dr : DismissReason) :
    (captureSuggestionRequested true sink context userTextLength).sinkCalls =
      [⟨.CHAT_AUTOCOMPLETE_SUGGESTION_REQUESTED,
        some [("modelId", optStrVal context.modelId),
              ("provider", optStrVal context.provider),
              ("usedFim", JSVal.vBool context.usedFim),
              ("hasVisibleCodeContext", JSVal.vBool context.hasVisibleCodeContext),
              ("hasClipboardContext", JSVal.vBool context.hasClipboardContext),
              ("userTextLength", JSVal.vNum userTextLength)]⟩] ∧
    (captureLlmRequestCompleted true sink p context).sinkCalls =
      [⟨.CHAT_AUTOCOMPLETE_LLM_REQUEST_COMPLETED,
        some (("latencyMs", JSVal.vNum p.latencyMs) ::
          ((match p.inputTokens with
            | some i => [("inputTokens", JSVal.vNum i)]
            | none => ([] : JSObject)) ++
           (match p.outputTokens with
            | some o => [("outputTokens", JSVal.vNum o)]
            | none => ([] : JSObject)) ++
           [("modelId", optStrVal context.modelId),
            ("provider", optStrVal context.provider),
            ("usedFim", JSVal.vBool context.usedFim)]))⟩] ∧
    (captureLlmRequestFailed true sink pf context).sinkCalls =
      [⟨.CHAT_AUTOCOMPLETE_LLM_REQUEST_FAILED,
        some [("latencyMs", JSVal.vNum pf.latencyMs),
              ("error", JSVal.vStr pf.error),
              ("modelId", optStrVal context.modelId),
              ("provider", optStrVal context.provider),
              ("usedFim", JSVal.vBool context.usedFim)]⟩] ∧
    (captureSuggestionReturned true sink context suggestionLength).sinkCalls =
      [⟨.CHAT_AUTOCOMPLETE_SUGGESTION_RETURNED,
        some [("modelId", optStrVal context.modelId),
              ("provider", optStrVal context.provider),
              ("usedFim", JSVal.vBool context.usedFim),
              ("suggestionLength", JSVal.vNum suggestionLength)]⟩] ∧
    (captureSuggestionFiltered true sink fr context).sinkCalls =
      [⟨.CHAT_AUTOCOMPLETE_SUGGESTION_FILTERED,
        some [("reason", JSVal.vStr (filterReasonStr fr)),
              ("modelId", optStrVal context.modelId),
              ("provider", optStrVal context.provider),
              ("usedFim", JSVal.vBool context.usedFim)]⟩] ∧
    (captureSuggestionAccepted true sink acceptedLength).sinkCalls =
      [⟨.CHAT_AUTOCOMPLETE_SUGGESTION_ACCEPTED,
        some [("suggestionLength", JSVal.vNum acceptedLength)]⟩] ∧
    (captureSuggestionDismissed true sink dr).sinkCalls =
      [⟨.CHAT_AUTOCOMPLETE_SUGGESTION_DISMISSED,
        some [("dismissReason", JSVal.vStr (dismissReasonStr dr))]⟩] := by
  refine ⟨captureEvent_true_sinkCalls sink _ _, ?_,
    captureEvent_true_sinkCalls sink _ _, captureEvent_true_sinkCalls sink _ _,
    captureEvent_true_sinkCalls sink _ _, captureEvent_true_sinkCalls sink _ _,
    captureEvent_true_sinkCalls sink _ _⟩
  obtain ⟨l, i, o⟩ := p
  cases i <;> cases o <;> exact captureEvent_true_sinkCalls sink _ _

/-- Claim C2: with no sink, every public capture operation does nothing at
all: no exception, no sink invocation, no log line. -/
theorem claim_C2_no_sink_silent_noop (sink : SinkBehavior)
    (context : ChatAutocompleteContext) (userTextLength : Int)
    (p : LlmRequestCompletedProps) (pf : LlmRequestFailedProps)
    (suggestionLength acceptedLength : Int)
    (fr : FilterReason) (dr : DismissReason) :
    captureSuggestionRequested false sink context userTextLength = ⟨[], [], none⟩ ∧
    captureLlmRequestCompleted false sink p context = ⟨[], [], none⟩ ∧
    captureLlmRequestFailed false sink pf context = ⟨[], [], none⟩ ∧
    captureSuggestionReturned false sink context suggestionLength = ⟨[], [], none⟩ ∧
    captureSuggestionFiltered false sink fr context = ⟨[], [], none⟩ ∧
    captureSuggestionAccepted false sink acceptedLength = ⟨[], [], none⟩ ∧
    captureSuggestionDismissed false sink dr = ⟨[], [], none⟩ :=
  ⟨rfl, rfl, rfl, rfl, rfl, rfl, rfl⟩

/-- Claim C3, counterexample: when the sink exists and its own `captureEvent`
throws, the private dispatch method propagates that exception — it is not true
that the dispatch never throws when the sink's call is executed. -/
theorem claim_C3_counterexample_sink_throw_propagates :
    (captureEvent true (fun _ _ => Except.error "sink failure")
      .CHAT_AUTOCOMPLETE_SUGGESTION_ACCEPTED
      (some [("suggestionLength", JSVal.vNum 1)])).thrown = some "sink failure" := rfl

/-- Claim C3, amended: the dispatch itself introduces no exception — it never
throws when the sink is absent, and never throws when the sink is present and
the sink's own `captureEvent` returns normally; only an exception raised
inside the sink's call propagates. -/
theorem claim_C3_amended_dispatch_itself_never_throws (sink : SinkBehavior)
    (e : TelemetryEventName) (p : Option JSObject) :
    (captureEvent false sink e p).thrown = none ∧
    (sink e p = Except.ok () → (captureEvent true sink e p).thrown = none) := by
  refine ⟨rfl, fun h => ?_⟩
  cases p with
  | some props => simp [captureEvent, h]
  | none => simp [captureEvent, h]

/-- Claim C3, witness for the amended theorem at a concrete sink and event. -/
theorem claim_C3_amended_witness :
    (captureEvent false okSink .CHAT_AUTOCOMPLETE_SUGGESTION_ACCEPTED none).thrown = none ∧
    (captureEvent true okSink .CHAT_AUTOCOMPLETE_SUGGESTION_ACCEPTED none).thrown = none :=
  ⟨(claim_C3_amended_dispatch_itself_never_throws okSink
      .CHAT_AUTOCOMPLETE_SUGGESTION_ACCEPTED none).1,
   (claim_C3_amended_dispatch_itself_never_throws okSink
      .CHAT_AUTOCOMPLETE_SUGGESTION_ACCEPTED none).2 rfl⟩

/-- Claim C4: `captureLlmRequestCompleted` called with only `latencyMs`
forwards a mapping whose keys are exactly `latencyMs, modelId, provider,
usedFim`; the absent optional token counts contribute no key at all. -/
theorem claim_C4_absent_optionals_absent_from_output (sink : SinkBehavior)
    (latencyMs : Int) (context : ChatAutocompleteContext) :
    (captureLlmRequestCompleted true sink ⟨latencyMs, none, none⟩ context).sinkCalls =
      [⟨.CHAT_AUTOCOMPLETE_LLM_REQUEST_COMPLETED,
        some [("latencyMs", JSVal.vNum latencyMs),
              ("modelId", optStrVal context.modelId),
              ("provider", optStrVal context.provider),
              ("usedFim", JSVal.vBool context.usedFim)]⟩] ∧
    objKeys (spreadWithContext (llmCompletedPropsObj ⟨latencyMs, none, none⟩) context) =
      ["latencyMs", "modelId", "provider", "usedFim"] ∧
    lookupKey (spreadWithContext (llmCompletedPropsObj ⟨latencyMs, none, none⟩) context)
      "inputTokens" = none ∧
    lookupKey (spreadWithContext (llmCompletedPropsObj ⟨latencyMs, none, none⟩) context)
      "outputTokens" = none :=
  ⟨captureEvent_true_sinkCalls sink _ _, rfl, rfl, rfl⟩

/-- Claim C5: in every capture operation that copies context fields, an
omitted `modelId` or `provider` is still a key of the assembled mapping, with
the value `undefined` — not dropped and not defaulted. -/
theorem claim_C5_undefined_context_fields_passed_through
    (context : ChatAutocompleteContext) (userTextLength suggestionLength : Int)
    (p : LlmRequestCompletedProps) (pf : LlmRequestFailedProps) (fr : FilterReason) :
    (context.modelId = none →
      lookupKey (suggestionRequestedProps context userTextLength) "modelId"
        = some JSVal.vUndefined) ∧
    (context.provider = none →
      lookupKey (suggestionRequestedProps context userTextLength) "provider"
        = some JSVal.vUndefined) ∧
    (context.modelId = none →
      lookupKey (spreadWithContext (llmCompletedPropsObj p) context) "modelId"
        = some JSVal.vUndefined) ∧
    (context.provider = none →
      lookupKey (spreadWithContext (llmCompletedPropsObj p) context) "provider"
        = some JSVal.vUndefined) ∧
    (context.modelId = none →
      lookupKey (spreadWithContext (llmFailedPropsObj pf) context) "modelId"
        = some JSVal.vUndefined) ∧
    (context.provider = none →
      lookupKey (spreadWithContext (llmFailedPropsObj pf) context) "provider"
        = some JSVal.vUndefined) ∧
    (context.modelId = none →
      lookupKey (suggestionReturnedProps context suggestionLength) "modelId"
        = some JSVal.vUndefined) ∧
    (context.provider = none →
      lookupKey (suggestionReturnedProps context suggestionLength) "provider"
        = some JSVal.vUndefined) ∧
    (context.modelId = none →
      lookupKey (suggestionFilteredProps fr context) "modelId"
        = some JSVal.vUndefined) ∧
    (context.provider = none →
      lookupKey (suggestionFilteredProps fr context) "provider"
        = some JSVal.vUndefined) := by
  refine ⟨fun h => ?_, fun h => ?_, fun h => ?_, fun h => ?_, fun h => ?_,
    fun h => ?_, fun h => ?_, fun h => ?_, fun h => ?_, fun h => ?_⟩
  · simp [suggestionRequestedProps, lookupKey, h, optStrVal]
  · simp [suggestionRequestedProps, lookupKey, h, optStrVal]
  · rw [lookup_spread_modelId, h]; rfl
  · rw [lookup_spread_provider, h]; rfl
  · rw [lookup_spread_modelId, h]; rfl
  · rw [lookup_spread_provider, h]; rfl
  · simp [suggestionReturnedProps, lookupKey, h, optStrVal]
  · simp [suggestionReturnedProps, lookupKey, h, optStrVal]
  · simp [suggestionFilteredProps, lookupKey, h, optStrVal]
  · simp [suggestionFilteredProps, lookupKey, h, optStrVal]

/-- Claim C5, witness at a context omitting both optional fields. -/
theorem claim_C5_witness :
    lookupKey (suggestionRequestedProps ⟨none, none, true, true, false⟩ 7) "modelId"
      = some JSVal.vUndefined ∧
    lookupKey (suggestionRequestedProps ⟨none, none, true, true, false⟩ 7) "provider"
      = some JSVal.vUndefined ∧
    lookupKey (spreadWithContext (llmCompletedPropsObj ⟨150, none, none⟩)
      ⟨none, none, true, true, false⟩) "modelId" = some JSVal.vUndefined ∧
    lookupKey (spreadWithContext (llmCompletedPropsObj ⟨150, none, none⟩)
      ⟨none, none, true, true, false⟩) "provider" = some JSVal.vUndefined ∧
    lookupKey (spreadWithContext (llmFailedPropsObj ⟨100, "boom"⟩)
      ⟨none, none, true, true, false⟩) "modelId" = some JSVal.vUndefined ∧
    lookupKey (spreadWithContext (llmFailedPropsObj ⟨100, "boom"⟩)
      ⟨none, none, true, true, false⟩) "provider" = some JSVal.vUndefined ∧
    lookupKey (suggestionReturnedProps ⟨none, none, true, true, false⟩ 9) "modelId"
      = some JSVal.vUndefined ∧
    lookupKey (suggestionReturnedProps ⟨none, none, true, true, false⟩ 9) "provider"
      = some JSVal.vUndefined ∧
    lookupKey (suggestionFilteredProps .too_short ⟨none, none, true, true, false⟩)
      "modelId" = some JSVal.vUndefined ∧
    lookupKey (suggestionFilteredProps .too_short ⟨none, none, true, true, false⟩)
      "provider" = some JSVal.vUndefined := by
  have h := claim_C5_undefined_context_fields_passed_through
    ⟨none, none, true, true, false⟩ 7 9 ⟨150, none, none⟩ ⟨100, "boom"⟩ .too_short
  exact ⟨h.1 rfl, h.2.1 rfl, h.2.2.1 rfl, h.2.2.2.1 rfl, h.2.2.2.2.1 rfl,
    h.2.2.2.2.2.1 rfl, h.2.2.2.2.2.2.1 rfl, h.2.2.2.2.2.2.2.1 rfl,
    h.2.2.2.2.2.2.2.2.1 rfl, h.2.2.2.2.2.2.2.2.2 rfl⟩

/-- Claim C6: the mappings of `captureSuggestionAccepted` and
`captureSuggestionDismissed` never contain `modelId`, `provider` or `usedFim`;
dismissing with `timeout` forwards exactly the one-key mapping
`dismissReason: "timeout"`. -/
theorem claim_C6_terminal_ops_omit_context (sink : SinkBehavior)
    (suggestionLength : Int) (dr : DismissReason) :
    lookupKey (suggestionAcceptedProps suggestionLength) "modelId" = none ∧
    lookupKey (suggestionAcceptedProps suggestionLength) "provider" = none ∧
    lookupKey (suggestionAcceptedProps suggestionLength) "usedFim" = none ∧
    lookupKey (suggestionDismissedProps dr) "modelId" = none ∧
    lookupKey (suggestionDismissedProps dr) "provider" = none ∧
    lookupKey (suggestionDismissedProps dr) "usedFim" = none ∧
    (captureSuggestionAccepted true sink suggestionLength).sinkCalls =
      [⟨.CHAT_AUTOCOMPLETE_SUGGESTION_ACCEPTED,
        some (suggestionAcceptedProps suggestionLength)⟩] ∧
    (captureSuggestionDismissed true sink .timeout).sinkCalls =
      [⟨.CHAT_AUTOCOMPLETE_SUGGESTION_DISMISSED,
        some [("dismissReason", JSVal.vStr "timeout")]⟩] :=
  ⟨rfl, rfl, rfl, rfl, rfl, rfl,
   captureEvent_true_sinkCalls sink _ _, captureEvent_true_sinkCalls sink _ _⟩

/-- Claim C7, counterexample: with a context omitting `modelId`, the forwarded
mapping of `captureSuggestionRequested` holds the key `modelId` with the value
`undefined`, which is not a string, a number or a boolean — so not every value
of an assembled mapping is a scalar string, number or boolean. -/
theorem claim_C7_counterexample_undefined_value :
    (captureSuggestionRequested true okSink ⟨none, none, false, false, false⟩ 5).sinkCalls =
      [⟨.CHAT_AUTOCOMPLETE_SUGGESTION_REQUESTED,
        some (suggestionRequestedProps ⟨none, none, false, false, false⟩ 5)⟩] ∧
    lookupKey (suggestionRequestedProps ⟨none, none, false, false, false⟩ 5) "modelId"
      = some JSVal.vUndefined ∧
    isStrNumBool JSVal.vUndefined = false :=
  ⟨rfl, rfl, rfl⟩

/-- Claim C7, amended: every assembled mapping is flat — every value is a
scalar (a string, a number, a boolean, or the value `undefined`), never a
nested object — and for each capture operation the key list is fixed across
calls, except that `inputTokens` and `outputTokens` are present exactly when
supplied. -/
theorem claim_C7_amended_flat_fixed_keys
    (context : ChatAutocompleteContext) (userTextLength suggestionLength acceptedLength : Int)
    (p : LlmRequestCompletedProps) (pf : LlmRequestFailedProps)
    (fr : FilterReason) (dr : DismissReason) :
    (allValuesScalar (suggestionRequestedProps context userTextLength) = true ∧
      objKeys (suggestionRequestedProps context userTextLength) =
        ["modelId", "provider", "usedFim", "hasVisibleCodeContext",
         "hasClipboardContext", "userTextLength"]) ∧
    (allValuesScalar (spreadWithContext (llmCompletedPropsObj p) context) = true ∧
      objKeys (spreadWithContext (llmCompletedPropsObj p) context) =
        ["latencyMs"] ++
          (match p.inputTokens with | some _ => ["inputTokens"] | none => []) ++
          (match p.outputTokens with | some _ => ["outputTokens"] | none => []) ++
          ["modelId", "provider", "usedFim"]) ∧
    (allValuesScalar (spreadWithContext (llmFailedPropsObj pf) context) = true ∧
      objKeys (spreadWithContext (llmFailedPropsObj pf) context) =
        ["latencyMs", "error", "modelId", "provider", "usedFim"]) ∧
    (allValuesScalar (suggestionReturnedProps context suggestionLength) = true ∧
      objKeys (suggestionReturnedProps context suggestionLength) =
        ["modelId", "provider", "usedFim", "suggestionLength"]) ∧
    (allValuesScalar (suggestionFilteredProps fr context) = true ∧
      objKeys (suggestionFilteredProps fr context) =
        ["reason", "modelId", "provider", "usedFim"]) ∧
    (allValuesScalar (suggestionAcceptedProps acceptedLength) = true ∧
      objKeys (suggestionAcceptedProps acceptedLength) = ["suggestionLength"]) ∧
    (allValuesScalar (suggestionDismissedProps dr) = true ∧
      objKeys (suggestionDismissedProps dr) = ["dismissReason"]) := by
  refine ⟨⟨?_, rfl⟩, ⟨?_, ?_⟩, ⟨?_, ?_⟩, ⟨?_, rfl⟩, ⟨?_, rfl⟩, ⟨rfl, rfl⟩, ⟨rfl, rfl⟩⟩
  · simp [allValuesScalar, suggestionRequestedProps, isScalar_optStrVal,
      isScalar_vBool, isScalar_vNum]
  · obtain ⟨l, i, o⟩ := p
    cases i <;> cases o <;>
      simp [allValuesScalar, spreadWithContext, setKey, llmCompletedPropsObj,
        isScalar_optStrVal, isScalar_vBool, isScalar_vNum]
  · obtain ⟨l, i, o⟩ := p
    cases i <;> cases o <;> rfl
  · simp [allValuesScalar, spreadWithContext, setKey, llmFailedPropsObj,
      isScalar_optStrVal, isScalar_vBool, isScalar_vNum, isScalar_vStr]
  · rfl
  · simp [allValuesScalar, suggestionReturnedProps, isScalar_optStrVal,
      isScalar_vBool, isScalar_vNum]
  · simp [allValuesScalar, suggestionFilteredProps, isScalar_optStrVal,
      isScalar_vBool, isScalar_vStr]

/-- Claim C8: with the sink present and its call returning normally, each
capture operation writes exactly one log line, the fixed prefix followed by
the event kind, with the properties attached; with the sink absent, no log
line is written. -/
theorem claim_C8_one_log_line_per_forward (sink : SinkBehavior)
    (hok : ∀ e q, sink e q = Except.ok ())
    (context : ChatAutocompleteContext) (userTextLength : Int)
    (p : LlmRequestCompletedProps) (pf : LlmRequestFailedProps)
    (suggestionLength acceptedLength : Int)
    (fr : FilterReason) (dr : DismissReason) :
    ((captureSuggestionRequested true sink context userTextLength).logs =
      [⟨"Chat Autocomplete Telemetry event: "
          ++ eventStr .CHAT_AUTOCOMPLETE_SUGGESTION_REQUESTED,
        some (suggestionRequestedProps context userTextLength)⟩] ∧
     (captureLlmRequestCompleted true sink p context).logs =
      [⟨"Chat Autocomplete Telemetry event: "
          ++ eventStr .CHAT_AUTOCOMPLETE_LLM_REQUEST_COMPLETED,
        some (spreadWithContext (llmCompletedPropsObj p) context)⟩] ∧
     (captureLlmRequestFailed true sink pf context).logs =
      [⟨"Chat Autocomplete Telemetry event: "
          ++ eventStr .CHAT_AUTOCOMPLETE_LLM_REQUEST_FAILED,
        some (spreadWithContext (llmFailedPropsObj pf) context)⟩] ∧
     (captureSuggestionReturned true sink context suggestionLength).logs =
      [⟨"Chat Autocomplete Telemetry event: "
          ++ eventStr .CHAT_AUTOCOMPLETE_SUGGESTION_RETURNED,
        some (suggestionReturnedProps context suggestionLength)⟩] ∧
     (captureSuggestionFiltered true sink fr context).logs =
      [⟨"Chat Autocomplete Telemetry event: "
          ++ eventStr .CHAT_AUTOCOMPLETE_SUGGESTION_FILTERED,
        some (suggestionFilteredProps fr context)⟩] ∧
     (captureSuggestionAccepted true sink acceptedLength).logs =
      [⟨"Chat Autocomplete Telemetry event: "
          ++ eventStr .CHAT_AUTOCOMPLETE_SUGGESTION_ACCEPTED,
        some (suggestionAcceptedProps acceptedLength)⟩] ∧
     (captureSuggestionDismissed true sink dr).logs =
      [⟨"Chat Autocomplete Telemetry event: "
          ++ eventStr .CHAT_AUTOCOMPLETE_SUGGESTION_DISMISSED,
        some (suggestionDismissedProps dr)⟩]) ∧
    ((captureSuggestionRequested false sink context userTextLength).logs = [] ∧
     (captureLlmRequestCompleted false sink p context).logs = [] ∧
     (captureLlmRequestFailed false sink pf context).logs = [] ∧
     (captureSuggestionReturned false sink context suggestionLength).logs = [] ∧
     (captureSuggestionFiltered false sink fr context).logs = [] ∧
     (captureSuggestionAccepted false sink acceptedLength).logs = [] ∧
     (captureSuggestionDismissed false sink dr).logs = []) :=
  ⟨⟨captureEvent_true_logs sink _ _ (hok _ _), captureEvent_true_logs sink _ _ (hok _ _),
    captureEvent_true_logs sink _ _ (hok _ _), captureEvent_true_logs sink _ _ (hok _ _),
    captureEvent_true_logs sink _ _ (hok _ _), captureEvent_true_logs sink _ _ (hok _ _),
    captureEvent_true_logs sink _ _ (hok _ _)⟩,
   ⟨rfl, rfl, rfl, rfl, rfl, rfl, rfl⟩⟩

/-- Claim C8, witness with a concrete always-normal sink and concrete calls. -/
theorem claim_C8_witness :
    (captureSuggestionDismissed true okSink .timeout).logs =
      [⟨"Chat Autocomplete Telemetry event: "
          ++ eventStr .CHAT_AUTOCOMPLETE_SUGGESTION_DISMISSED,
        some (suggestionDismissedProps .timeout)⟩] ∧
    (captureSuggestionDismissed false okSink .timeout).logs = [] :=
  ⟨(claim_C8_one_log_line_per_forward okSink (fun _ _ => rfl)
      ⟨some "test-model", some "test-provider", true, true, false⟩ 42
      ⟨150, none, none⟩ ⟨100, "boom"⟩ 25 30 .too_short .timeout).1.2.2.2.2.2.2,
   (claim_C8_one_log_line_per_forward okSink (fun _ _ => rfl)
      ⟨some "test-model", some "test-provider", true, true, false⟩ 42
      ⟨150, none, none⟩ ⟨100, "boom"⟩ 25 30 .too_short .timeout).2.2.2.2.2.2.2⟩

/-- Claim C9: the reporter is stateless and the capture operations only read
their arguments: running any sequence of capture calls returns the reporter
state unchanged and each call unchanged, and the result of every call in the
sequence is exactly the function of its own arguments and the sink state — so
two calls with the same arguments and the same sink state forward the same
event. -/
theorem claim_C9_stateless_reporter (st : ReporterState) (hasInstance : Bool)
    (sink : SinkBehavior) (calls : List CaptureCall) (c : CaptureCall) :
    runSeq st hasInstance sink calls = (st, calls.map (runCall hasInstance sink)) ∧
    runCallSt st hasInstance sink c = (st, c, runCall hasInstance sink c) := by
  refine ⟨?_, rfl⟩
  induction calls with
  | nil => rfl
  | cons a as ih => simp [runSeq, runCallSt, ih]

/-- Claim C10: in `captureLlmRequestCompleted` and `captureLlmRequestFailed`
the three context assignments come after the spread of the input record, so
whatever keys the raw runtime record carries — including `modelId`,
`provider` or `usedFim` — the forwarded mapping holds the context's values
for those three keys. -/
theorem claim_C10_context_overrides_spread (sink : SinkBehavior)
    (raw : JSObject) (context : ChatAutocompleteContext) :
    lookupKey (spreadWithContext raw context) "modelId"
      = some (optStrVal context.modelId) ∧
    lookupKey (spreadWithContext raw context) "provider"
      = some (optStrVal context.provider) ∧
    lookupKey (spreadWithContext raw context) "usedFim"
      = some (JSVal.vBool context.usedFim) ∧
    (captureLlmRequestCompletedRaw true sink raw context).sinkCalls =
      [⟨.CHAT_AUTOCOMPLETE_LLM_REQUEST_COMPLETED, some (spreadWithContext raw context)⟩] ∧
    (captureLlmRequestFailedRaw true sink raw context).sinkCalls =
      [⟨.CHAT_AUTOCOMPLETE_LLM_REQUEST_FAILED, some (spreadWithContext raw context)⟩] :=
  ⟨lookup_spread_modelId raw context, lookup_spread_provider raw context,
   lookup_spread_usedFim raw context,
   captureEvent_true_sinkCalls sink _ _, captureEvent_true_sinkCalls sink _ _⟩

end ChatAutocomplete
